import Mathlib

/-!
Shallow embedding of the SMART backend-services auth utilities
(`src/client.js`, `src/in_memory_persistence.js`, `src/server.js`).

Times are modelled in seconds as integers: `World.now` stands for
`Date.now() / 1000` at the moment of the call.  Network traffic is made
observable as a list of `Effect`s returned alongside the result, and the
responses the network would deliver are supplied up front in a `World`
record.  JavaScript exceptions (thrown strings, `TypeError` from property
access on `undefined`, `ReferenceError` from evaluating an undeclared
identifier) are modelled with `Except JsError`.
-/

namespace SmartBackendAuth

/-- JavaScript truthiness of an optional string-valued field:
`undefined` and the empty string are falsy. -/
def truthy : Option String → Bool
  | none => false
  | some s => s != ""

/-- A JSON Web Key.  The `d` parameter is the RSA private exponent: a key
record carrying `d` holds private key material. -/
structure JWK where
  kid : String
  kty : String := "RSA"
  use : Option String := none
  n : Option String := none
  e : Option String := none
  d : Option String := none
  deriving DecidableEq, Repr

/-- A JSON Web Key Set (`{keys: [...]}`). -/
structure JWKS where
  keys : List JWK
  deriving DecidableEq, Repr

/-- True when some key of the set carries private key material. -/
def JWKS.hasPrivateMaterial (ks : JWKS) : Bool :=
  ks.keys.any (fun k => k.d.isSome)

/-- A server's SMART/OAuth configuration object as the source reads it.
Field names follow the source, including the `intorspection_endpoint`
spelling used by `server.js` and the `jwks_url` spelling used by
`client.js#loadServerKeys`. -/
structure ServerConfig where
  token_endpoint : String
  registration_endpoint : Option String := none
  jwks_url : Option String := none
  jwks_uri : Option String := none
  jwks : Option JWKS := none
  intorspection_endpoint : Option String := none
  deriving DecidableEq, Repr

/-- The client metadata a server returns from dynamic registration. -/
structure ClientRegistration where
  client_id : String
  deriving DecidableEq, Repr

/-- An access token record.  The wire response lacks `issued_at`; the
client stamps it (`token.issued_at = Date.now() / 1000`) before caching. -/
structure Token where
  access_token : String
  token_type : String
  expires_in : Int
  scope : Option String := none
  issued_at : Int := 0
  deriving DecidableEq, Repr

/-- JavaScript property assignment on a string-keyed object map. -/
def jsSet {α : Type} (m : List (String × α)) (k : String) (v : α) :
    List (String × α) :=
  (k, v) :: m.filter (fun p => p.1 != k)

/-- JavaScript property read on a string-keyed object map. -/
def jsGet {α : Type} (m : List (String × α)) (k : String) : Option α :=
  (m.find? (fun p => p.1 == k)).map Prod.snd

/-- The `InMemoryPersistence` cache.  In the source, server configurations
are stored as string-keyed properties on the `cache.servers` array; the
numeric entries pushed by `addServer` and the string-keyed properties are
therefore kept as two components here.  A stored value of `none` models a
property explicitly assigned `undefined`. -/
structure Store where
  servers : List String := []
  serverProps : List (String × Option ServerConfig) := []
  clientConfig : List (String × ClientRegistration) := []
  accessTokens : List (String × Token) := []
  serverKeys : List (String × JWKS) := []
  deriving DecidableEq, Repr

def Store.addServer (st : Store) (server : String) : Store :=
  { st with servers := st.servers ++ [server] }

def Store.addServerConfiguration (st : Store) (server : String)
    (config : Option ServerConfig) : Store :=
  { st with serverProps := jsSet st.serverProps server config }

def Store.getServerConfiguration (st : Store) (server : String) :
    Option ServerConfig :=
  (jsGet st.serverProps server).join

def Store.addClientConfiguration (st : Store) (server : String)
    (client : ClientRegistration) : Store :=
  { st with clientConfig := jsSet st.clientConfig server client }

def Store.getClientConfiguration (st : Store) (server : String) :
    Option ClientRegistration :=
  jsGet st.clientConfig server

def Store.addAccessToken (st : Store) (server : String) (token : Token) :
    Store :=
  { st with accessTokens := jsSet st.accessTokens server token }

def Store.getAccessToken (st : Store) (server : String) : Option Token :=
  jsGet st.accessTokens server

def Store.addServerKeys (st : Store) (server : String) (keys : JWKS) :
    Store :=
  { st with serverKeys := jsSet st.serverKeys server keys }

def Store.getServerKeys (st : Store) (server : String) : Option JWKS :=
  match jsGet st.serverKeys server with
  | some keys => some keys
  | none =>
    match st.getServerConfiguration server with
    | some config => config.jwks
    | none => none

def Store.clearTokens (st : Store) (server : Option String) : Store :=
  match server with
  | none => { st with accessTokens := [] }
  | some s =>
      { st with accessTokens := st.accessTokens.filter (fun p => p.1 != s) }

/-- Constructor options of `Client` (`options` argument). -/
structure Options where
  signingKeyId : Option String := none
  scopes : Option String := none
  client_name : Option String := none
  jwks_uri : Option String := none
  deriving DecidableEq, Repr

/-- The `Client` object: its (private) signing JWKS and options.  The
constructor copies `options.signingKeyId` onto the instance. -/
structure Client where
  jwks : JWKS
  signingKeyId : Option String
  options : Options
  deriving DecidableEq, Repr

def Client.make (jwks : JWKS) (options : Options) : Client :=
  { jwks := jwks, signingKeyId := options.signingKeyId, options := options }

/-- `scopes()`: the configured scopes, or the `system/*.read` default when
unset (JavaScript `||`, so the empty string also falls back). -/
def Client.scopes (c : Client) : String :=
  match c.options.scopes with
  | some s => if s == "" then "system/*.read" else s
  | none => "system/*.read"

/-- The body of a dynamic-registration POST. -/
structure RegistrationMetaData where
  client_name : Option String
  token_endpoint_auth_method : String
  jwks : Option JWKS := none
  jwks_uri : Option String := none
  deriving DecidableEq, Repr

/-- `generateRegistrationMetaData()`: client name, auth method, and either
the configured `jwks_uri` or the client's own `this.jwks` verbatim. -/
def Client.generateRegistrationMetaData (c : Client) : RegistrationMetaData :=
  if truthy c.options.jwks_uri then
    { client_name := c.options.client_name
      token_endpoint_auth_method := "client_credentials"
      jwks_uri := c.options.jwks_uri }
  else
    { client_name := c.options.client_name
      token_endpoint_auth_method := "client_credentials"
      jwks := some c.jwks }

/-- What `getKeyOrDefault` hands to `jose.JWS.createSign`: either the
single `keystore.get(kid)` result, or the full `keystore.all({use: sig})`
array. -/
inductive KeySelection where
  | single : Option JWK → KeySelection
  | allSig : List JWK → KeySelection
  deriving DecidableEq, Repr

/-- `getKeyOrDefault(kid)`: with a (truthy) kid, look that key up;
otherwise return every key whose `use` is `sig` (`keystore.all`). -/
def Client.getKeyOrDefault (c : Client) (kid : Option String) :
    KeySelection :=
  if truthy kid then
    KeySelection.single (c.jwks.keys.find? (fun k => k.kid == kid.getD ""))
  else
    KeySelection.allSig (c.jwks.keys.filter (fun k => k.use == some "sig"))

/-- Modelled from the spec's words, for comparison with the source's
`getKeyOrDefault`: the first key in the local KeySet whose usage is
signature. -/
def specDefaultSigningKey (c : Client) : Option JWK :=
  c.jwks.keys.find? (fun k => k.use == some "sig")

/-- The claims object signed into the JWT assertion. -/
structure JWTPayload where
  sub : String
  iss : String
  aud : String
  exp : Int
  jti : String
  deriving DecidableEq, Repr

/-- A signing request as handed to `jose.JWS.createSign`. -/
structure SignedJWT where
  alg : String
  compact : Bool
  payload : JWTPayload
  signer : KeySelection
  deriving DecidableEq, Repr

/-- `generateJWT(client_id, aud, kid)`: RS384 compact JWS over
`{sub, iss, aud, exp: now+300, jti}` with the `getKeyOrDefault` key. -/
def Client.generateJWT (c : Client) (now : Int) (jti : String)
    (client_id aud : String) (kid : Option String) : SignedJWT :=
  { alg := "RS384"
    compact := true
    payload :=
      { sub := client_id, iss := client_id, aud := aud
        exp := now + 300, jti := jti }
    signer := c.getKeyOrDefault kid }

/-- Form parameters of the token-endpoint POST. -/
structure TokenRequestParams where
  client_assertion : SignedJWT
  client_assertion_type : String
  grant_type : String
  scopes : String
  deriving DecidableEq, Repr

/-- One observable network interaction. -/
inductive Effect where
  | httpGet : String → Effect
  | httpGetOpt : Option String → Effect
  | registrationPost : String → RegistrationMetaData → Effect
  | tokenPost : String → TokenRequestParams → Effect
  | introspectionPost : Option String → List (String × String) → Effect
  deriving DecidableEq, Repr

def Effect.isRegistrationPost : Effect → Bool
  | Effect.registrationPost _ _ => true
  | _ => false

def Effect.isTokenPost : Effect → Bool
  | Effect.tokenPost _ _ => true
  | _ => false

/-- A JavaScript exception surfacing from a call. -/
inductive JsError where
  | thrownString : String → JsError
  | referenceError : String → JsError
  | typeError : JsError
  deriving DecidableEq, Repr

/-- Environment of one call: the current time in seconds
(`Date.now() / 1000`), the fresh `uuid.v4()` value, and the bodies the
network would answer with. -/
structure World where
  now : Int
  jti : String
  discoveryResponse : ServerConfig
  jwksResponse : JWKS
  registrationResponse : ClientRegistration
  tokenResponse : Token
  deriving DecidableEq, Repr

/-- `register(server)`: return the stored `ClientRegistration` if any;
otherwise read the server configuration (a `TypeError` if none is stored).
Without a registration endpoint the source logs and then evaluates the
stray undeclared identifier `ÃŸ` on line 289, raising a `ReferenceError`
before its `return null` is reached.  With an endpoint it POSTs the
registration metadata and persists the response. -/
def Client.register (c : Client) (w : World) (st : Store) (server : String) :
    Except JsError (Option ClientRegistration) × Store × List Effect :=
  match st.getClientConfiguration server with
  | some config => (Except.ok (some config), st, [])
  | none =>
    match st.getServerConfiguration server with
    | none => (Except.error JsError.typeError, st, [])
    | some serverConfig =>
      if truthy serverConfig.registration_endpoint then
        (Except.ok (some w.registrationResponse),
          st.addClientConfiguration server w.registrationResponse,
          [Effect.registrationPost (serverConfig.registration_endpoint.getD "")
            c.generateRegistrationMetaData])
      else
        (Except.error (JsError.referenceError "ÃŸ"), st, [])

/-- The tail of `requestAccessToken` after the client lookup: with a
client configuration, sign the assertion, POST to the token endpoint,
stamp `issued_at := now`, persist and return the token; without one,
throw `"Client information not found"`. -/
def Client.finishTokenRequest (c : Client) (w : World) (st : Store)
    (server : String) (kid : Option String) (scopes : String)
    (serverConfig : ServerConfig) (client : Option ClientRegistration)
    (effs : List Effect) :
    Except JsError Token × Store × List Effect :=
  match client with
  | some client =>
    let jwt := c.generateJWT w.now w.jti client.client_id
      serverConfig.token_endpoint kid
    let params : TokenRequestParams :=
      { client_assertion := jwt
        client_assertion_type := ""
        grant_type := "client_credentials"
        scopes := scopes }
    let token := { w.tokenResponse with issued_at := w.now }
    (Except.ok token, st.addAccessToken server token,
      effs ++ [Effect.tokenPost serverConfig.token_endpoint params])
  | none =>
    (Except.error (JsError.thrownString "Client information not found"),
      st, effs)

/-- The body of `requestAccessToken` once the cached token is absent or
stale: read the server and client configuration, self-register when there
is no client but the server advertises a registration endpoint, then
finish the token request.  Accessing `registration_endpoint` or
`token_endpoint` on an absent configuration is a `TypeError`. -/
def Client.requestAccessTokenCore (c : Client) (w : World) (st : Store)
    (server : String) (kid : Option String) (scopes : String) :
    Except JsError Token × Store × List Effect :=
  match st.getClientConfiguration server with
  | none =>
    match st.getServerConfiguration server with
    | none => (Except.error JsError.typeError, st, [])
    | some serverConfig =>
      if truthy serverConfig.registration_endpoint then
        match c.register w st server with
        | (Except.error e, st1, effs) => (Except.error e, st1, effs)
        | (Except.ok client, st1, effs) =>
          c.finishTokenRequest w st1 server kid scopes serverConfig client effs
      else
        c.finishTokenRequest w st server kid scopes serverConfig none []
  | some client =>
    match st.getServerConfiguration server with
    | none => (Except.error JsError.typeError, st, [])
    | some serverConfig =>
      c.finishTokenRequest w st server kid scopes serverConfig (some client) []

/-- `requestAccessToken(server, kid, scopes)`: return the cached token
when `issued_at + expires_in > now`, otherwise run the exchange. -/
def Client.requestAccessToken (c : Client) (w : World) (st : Store)
    (server : String) (kid : Option String) (scopes : String) :
    Except JsError Token × Store × List Effect :=
  match st.getAccessToken server with
  | some accessToken =>
    if accessToken.issued_at + accessToken.expires_in > w.now then
      (Except.ok accessToken, st, [])
    else
      c.requestAccessTokenCore w st server kid scopes
  | none => c.requestAccessTokenCore w st server kid scopes

/-- `requestToken(server, force)`: return any cached token at all,
regardless of expiry, else delegate to `requestAccessToken(server)` with
the default key id and scopes.  The `force` parameter is never read. -/
def Client.requestToken (c : Client) (w : World) (st : Store)
    (server : String) (force : Bool) :
    Except JsError Token × Store × List Effect :=
  match st.getAccessToken server with
  | some accessToken =>
    let _ := force
    (Except.ok accessToken, st, [])
  | none => c.requestAccessToken w st server c.signingKeyId c.scopes

/-- `loadServerConfiguration(server)`: GET the well-known configuration,
persist it, then eagerly fetch and persist the server keys from the
stored configuration's `jwks_url`. -/
def Client.loadServerConfiguration (c : Client) (w : World) (st : Store)
    (server : String) :
    Except JsError ServerConfig × Store × List Effect :=
  let _ := c
  let st1 := st.addServerConfiguration server (some w.discoveryResponse)
  match st1.getServerConfiguration server with
  | none =>
    (Except.error JsError.typeError, st1,
      [Effect.httpGet (server ++ "/.well-known/smart-configuration")])
  | some config =>
    (Except.ok w.discoveryResponse, st1.addServerKeys server w.jwksResponse,
      [Effect.httpGet (server ++ "/.well-known/smart-configuration"),
        Effect.httpGetOpt config.jwks_url])

/-- `addServer(server, serverConfig)`: push the server, then either store
the supplied configuration or run discovery.  The source passes the
configuration object in the server-key position of
`addServerConfiguration` and supplies no value, so JavaScript coerces the
object to the property key `"[object Object]"` and assigns `undefined`. -/
def Client.addServer (c : Client) (w : World) (st : Store) (server : String)
    (serverConfig : Option ServerConfig) :
    Except JsError (Option ServerConfig) × Store × List Effect :=
  let st0 := st.addServer server
  match serverConfig with
  | some config =>
    (Except.ok (some config),
      st0.addServerConfiguration "[object Object]" none, [])
  | none =>
    match c.loadServerConfiguration w st0 server with
    | (Except.ok config, st1, effs) => (Except.ok (some config), st1, effs)
    | (Except.error e, st1, effs) => (Except.error e, st1, effs)

/-- The body an introspection endpoint answers with. -/
structure IntrospectionResponse where
  active : Bool
  sub : Option String := none
  scope : Option String := none
  deriving DecidableEq, Repr

/-- The `ServerUtils` object of `server.js`. -/
structure ServerUtils where
  serverConfiguration : ServerConfig
  deriving DecidableEq, Repr

/-- `serverValidate(token)`: written to POST the form-encoded token to the
configured `intorspection_endpoint` and branch on `active`; but
`server.js` requires only `node-jose` and `querystring`, never `axios`,
and `axios` is no Node global, so evaluating `axios.post` on line 55
raises `ReferenceError: axios is not defined` before any POST is made.
Every call fails with that error having produced no network traffic; the
`active`/`null` branches after the POST are unreachable. -/
def ServerUtils.serverValidate (s : ServerUtils) (token : String) :
    Except JsError (Option IntrospectionResponse) × List Effect :=
  let _ := s.serverConfiguration.intorspection_endpoint
  let _ := token
  (Except.error (JsError.referenceError "axios"), [])

/-! ### Concrete fixtures used by the closed theorems and witnesses -/

def ehr : String := "https://ehr.example.org"

/-- An RSA signing key carrying its private exponent `d`, as a backend
client's signing JWKS does. -/
def privateSigKey : JWK :=
  { kid := "key-1", use := some "sig", n := some "mod-1", e := some "AQAB"
    d := some "priv-exp-1" }

/-- A second private signing key in the same set. -/
def secondSigKey : JWK :=
  { kid := "key-2", use := some "sig", n := some "mod-2", e := some "AQAB"
    d := some "priv-exp-2" }

def demoClient : Client :=
  Client.make ⟨[privateSigKey, secondSigKey]⟩ { client_name := some "demo-client" }

def demoWorld : World :=
  { now := 1000
    jti := "jti-1"
    discoveryResponse := { token_endpoint := "https://ehr.example.org/token" }
    jwksResponse := ⟨[]⟩
    registrationResponse := { client_id := "abc123" }
    tokenResponse :=
      { access_token := "xyz", token_type := "Bearer", expires_in := 300 } }

def cfgWithReg : ServerConfig :=
  { token_endpoint := "https://ehr.example.org/token"
    registration_endpoint := some "https://ehr.example.org/register" }

def cfgNoReg : ServerConfig :=
  { token_endpoint := "https://ehr.example.org/token" }

def stWithReg : Store := Store.addServerConfiguration {} ehr (some cfgWithReg)

def stNoReg : Store := Store.addServerConfiguration {} ehr (some cfgNoReg)

def stRegistered : Store :=
  Store.addClientConfiguration {} ehr { client_id := "abc123" }

def freshTok : Token :=
  { access_token := "xyz", token_type := "Bearer", expires_in := 300
    issued_at := 900 }

def staleTok : Token :=
  { access_token := "old", token_type := "Bearer", expires_in := 100
    issued_at := 0 }

def stFresh : Store := Store.addAccessToken {} ehr freshTok

def stStale : Store :=
  Store.addAccessToken
    (Store.addClientConfiguration stWithReg ehr { client_id := "abc123" })
    ehr staleTok

def introServer : ServerUtils :=
  { serverConfiguration :=
      { token_endpoint := "https://ehr.example.org/token"
        intorspection_endpoint := some "https://ehr.example.org/introspect" } }

/-! ### Shared helper lemmas -/

theorem getClientConfiguration_addClientConfiguration (st : Store)
    (server : String) (reg : ClientRegistration) :
    (st.addClientConfiguration server reg).getClientConfiguration server =
      some reg := by
  simp [Store.addClientConfiguration, Store.getClientConfiguration, jsGet,
    jsSet]

theorem register_of_cached (c : Client) (w : World) (st : Store)
    (server : String) (cfg : ClientRegistration)
    (h : st.getClientConfiguration server = some cfg) :
    c.register w st server = (Except.ok (some cfg), st, []) := by
  simp [Client.register, h]

/-! ### Claim theorems -/

/-- C1: the registration body is `{client_name,
token_endpoint_auth_method: "client_credentials"}` plus `jwks_uri` or a
JWKS, but when no `jwks_uri` is configured the JWKS placed in the body is
the client's own `this.jwks` — its private signing-key set — so private
key parameters (`d`) are POSTed to the remote server, contradicting the
claim that only public signing-key material is ever transmitted. -/
theorem register_posts_private_jwks :
    demoClient.register demoWorld stWithReg ehr =
      (Except.ok (some { client_id := "abc123" }),
        stWithReg.addClientConfiguration ehr { client_id := "abc123" },
        [Effect.registrationPost "https://ehr.example.org/register"
          demoClient.generateRegistrationMetaData]) ∧
    demoClient.generateRegistrationMetaData.jwks = some demoClient.jwks ∧
    demoClient.jwks.hasPrivateMaterial = true := by
  refine ⟨rfl, rfl, rfl⟩

/-- C2: a cached token with `issued_at + expires_in > now` is returned
unchanged with no network effect and no store write; a token with
`issued_at + expires_in = now` is treated as expired, so (given a stored
server configuration and client registration) the call performs a
token-endpoint POST. -/
theorem requestAccessToken_cache_rule (c : Client) (w : World) (st : Store)
    (server : String) (kid : Option String) (scopes : String) (tok : Token)
    (hcache : st.getAccessToken server = some tok) :
    (tok.issued_at + tok.expires_in > w.now →
      c.requestAccessToken w st server kid scopes = (Except.ok tok, st, [])) ∧
    (tok.issued_at + tok.expires_in = w.now →
      ∀ sc client, st.getServerConfiguration server = some sc →
        st.getClientConfiguration server = some client →
        (c.requestAccessToken w st server kid scopes).2.2.any
          Effect.isTokenPost = true) := by
  constructor
  · intro hfresh
    simp [Client.requestAccessToken, hcache, hfresh]
  · intro heq sc client hsc hclient
    have hnotgt : ¬ (tok.issued_at + tok.expires_in > w.now) := by omega
    simp [Client.requestAccessToken, hcache, hnotgt,
      Client.requestAccessTokenCore, hsc, hclient, Client.finishTokenRequest,
      Effect.isTokenPost]

/-- Witness for C2 at a concrete fresh cached token. -/
theorem requestAccessToken_cache_rule_witness :
    demoClient.requestAccessToken demoWorld stFresh ehr none "system/*.read" =
      (Except.ok freshTok, stFresh, []) :=
  (requestAccessToken_cache_rule demoClient demoWorld stFresh ehr none
    "system/*.read" freshTok rfl).1 (by decide)

/-- C3: `requestToken` returns any cached token at all — fresh or expired
— unchanged with no effects; on the same expired token
`requestAccessToken` performs a token-endpoint POST; and with no cached
token `requestToken` returns exactly the result of `requestAccessToken`
with the default key id and scopes. -/
theorem requestToken_ignores_expiry (c : Client) (w : World) (st : Store)
    (server : String) (force : Bool) :
    (∀ tok, st.getAccessToken server = some tok →
      c.requestToken w st server force = (Except.ok tok, st, []) ∧
      (tok.issued_at + tok.expires_in ≤ w.now →
        ∀ sc client, st.getServerConfiguration server = some sc →
          st.getClientConfiguration server = some client →
          (c.requestAccessToken w st server c.signingKeyId c.scopes).2.2.any
            Effect.isTokenPost = true)) ∧
    (st.getAccessToken server = none →
      c.requestToken w st server force =
        c.requestAccessToken w st server c.signingKeyId c.scopes) := by
  constructor
  · intro tok hcache
    constructor
    · simp [Client.requestToken, hcache]
    · intro hexp sc client hsc hclient
      have hnotgt : ¬ (tok.issued_at + tok.expires_in > w.now) := by omega
      simp [Client.requestAccessToken, hcache, hnotgt,
        Client.requestAccessTokenCore, hsc, hclient,
        Client.finishTokenRequest, Effect.isTokenPost]
  · intro hnone
    simp [Client.requestToken, Client.requestAccessToken, hnone]

/-- Witness for C3 at a concrete expired cached token. -/
theorem requestToken_ignores_expiry_witness :
    demoClient.requestToken demoWorld stStale ehr false =
      (Except.ok staleTok, stStale, []) :=
  ((requestToken_ignores_expiry demoClient demoWorld stStale ehr false).1
    staleTok rfl).1

/-- C4: `addServer` with a supplied configuration makes no network call
and returns the configuration, but because the source passes the
configuration object in the server-key position of
`addServerConfiguration`, the store records only an `undefined` value
under the key `"[object Object]"`, and `getServerConfiguration(server)`
afterwards yields nothing — not the supplied configuration the claim
promises. -/
theorem addServer_discards_supplied_config :
    demoClient.addServer demoWorld {} ehr (some cfgNoReg) =
      (Except.ok (some cfgNoReg),
        { servers := [ehr], serverProps := [("[object Object]", none)] },
        []) ∧
    ((demoClient.addServer demoWorld {} ehr
        (some cfgNoReg)).2.1).getServerConfiguration ehr = none := by
  refine ⟨rfl, rfl⟩

/-- C5: with no cached token and no stored client registration, a stored
server configuration advertising a (non-empty) registration endpoint
makes `requestAccessToken` POST the registration before the token
request, in that order; with no registration endpoint it fails with the
`"Client information not found"` throw (the spec's `NoClientError`) and
performs no network call at all. -/
theorem requestAccessToken_self_registration_or_no_client
    (c : Client) (w : World) (st : Store) (server : String)
    (kid : Option String) (scopes : String) (sc : ServerConfig)
    (hnotok : st.getAccessToken server = none)
    (hnoclient : st.getClientConfiguration server = none)
    (hsc : st.getServerConfiguration server = some sc) :
    (∀ ep, sc.registration_endpoint = some ep → ep ≠ "" →
      (c.requestAccessToken w st server kid scopes).2.2 =
        [Effect.registrationPost ep c.generateRegistrationMetaData,
          Effect.tokenPost sc.token_endpoint
            { client_assertion := c.generateJWT w.now w.jti
                w.registrationResponse.client_id sc.token_endpoint kid
              client_assertion_type := ""
              grant_type := "client_credentials"
              scopes := scopes }]) ∧
    (sc.registration_endpoint = none →
      c.requestAccessToken w st server kid scopes =
        (Except.error (JsError.thrownString "Client information not found"),
          st, [])) := by
  constructor
  · intro ep hep hepne
    have ht : truthy sc.registration_endpoint = true := by
      simp [truthy, hep, hepne]
    simp [Client.requestAccessToken, hnotok, Client.requestAccessTokenCore,
      hnoclient, hsc, ht, Client.register, Client.finishTokenRequest, hep,
      truthy, hepne]
  · intro hnoep
    have ht : truthy sc.registration_endpoint = false := by
      simp [truthy, hnoep]
    simp [Client.requestAccessToken, hnotok, Client.requestAccessTokenCore,
      hnoclient, hsc, ht, Client.finishTokenRequest]

/-- Witness for C5 at a concrete server without a registration
endpoint. -/
theorem requestAccessToken_self_registration_or_no_client_witness :
    demoClient.requestAccessToken demoWorld stNoReg ehr none "system/*.read" =
      (Except.error (JsError.thrownString "Client information not found"),
        stNoReg, []) :=
  (requestAccessToken_self_registration_or_no_client demoClient demoWorld
    stNoReg ehr none "system/*.read" cfgNoReg rfl rfl rfl).2 rfl

/-- C6: with a stored `ClientRegistration`, `register` returns it
unchanged with no network call; two successive `register` calls perform
at most one registration POST; and whenever the first call succeeds with
a registration, the second call returns that same registration from the
store with no further effects. -/
theorem register_idempotent (c : Client) (w w2 : World) (st : Store)
    (server : String) :
    (∀ cfg, st.getClientConfiguration server = some cfg →
      c.register w st server = (Except.ok (some cfg), st, [])) ∧
    ((c.register w st server).2.2 ++
        (c.register w2 (c.register w st server).2.1 server).2.2).countP
      Effect.isRegistrationPost ≤ 1 ∧
    (∀ reg, (c.register w st server).1 = Except.ok (some reg) →
      c.register w2 (c.register w st server).2.1 server =
        (Except.ok (some reg), (c.register w st server).2.1, [])) := by
  refine ⟨fun cfg h => register_of_cached c w st server cfg h, ?_, ?_⟩
  · cases hcc : st.getClientConfiguration server with
    | some cfg =>
      simp [register_of_cached c w st server cfg hcc,
        register_of_cached c w2 st server cfg hcc]
    | none =>
      cases hsc : st.getServerConfiguration server with
      | none => simp [Client.register, hcc, hsc]
      | some sc =>
        by_cases ht : truthy sc.registration_endpoint
        · have h1 : c.register w st server =
              (Except.ok (some w.registrationResponse),
                st.addClientConfiguration server w.registrationResponse,
                [Effect.registrationPost (sc.registration_endpoint.getD "")
                  c.generateRegistrationMetaData]) := by
            simp [Client.register, hcc, hsc, ht]
          have h2 := register_of_cached c w2
            (st.addClientConfiguration server w.registrationResponse) server
            w.registrationResponse
            (getClientConfiguration_addClientConfiguration st server
              w.registrationResponse)
          simp [h1, h2, Effect.isRegistrationPost]
        · simp [Client.register, hcc, hsc, ht]
  · intro reg hreg
    cases hcc : st.getClientConfiguration server with
    | some cfg =>
      have h1 := register_of_cached c w st server cfg hcc
      have h2 := register_of_cached c w2 st server cfg hcc
      rw [h1] at hreg
      simp only [Except.ok.injEq, Option.some.injEq] at hreg
      subst hreg
      simp [h1, h2]
    | none =>
      cases hsc : st.getServerConfiguration server with
      | none => simp [Client.register, hcc, hsc] at hreg
      | some sc =>
        by_cases ht : truthy sc.registration_endpoint
        · have h1 : c.register w st server =
              (Except.ok (some w.registrationResponse),
                st.addClientConfiguration server w.registrationResponse,
                [Effect.registrationPost (sc.registration_endpoint.getD "")
                  c.generateRegistrationMetaData]) := by
            simp [Client.register, hcc, hsc, ht]
          have h2 := register_of_cached c w2
            (st.addClientConfiguration server w.registrationResponse) server
            w.registrationResponse
            (getClientConfiguration_addClientConfiguration st server
              w.registrationResponse)
          rw [h1] at hreg
          simp only [Except.ok.injEq, Option.some.injEq] at hreg
          subst hreg
          simp [h1, h2]
        · simp [Client.register, hcc, hsc, ht] at hreg

/-- Witness for C6 at a concrete store that already holds a
registration. -/
theorem register_idempotent_witness :
    demoClient.register demoWorld stRegistered ehr =
      (Except.ok (some { client_id := "abc123" }), stRegistered, []) :=
  (register_idempotent demoClient demoWorld demoWorld stRegistered ehr).1
    { client_id := "abc123" } rfl

/-- C7: with no stored registration and a server configuration lacking a
registration endpoint, `register` is claimed to return a non-error "no
registration available" result; the source instead evaluates the stray
undeclared identifier `ÃŸ` after the log statement and raises a
`ReferenceError` before its `return null` is reached. -/
theorem register_throws_on_missing_registration_endpoint :
    demoClient.register demoWorld stNoReg ehr =
      (Except.error (JsError.referenceError "ÃŸ"), stNoReg, []) := rfl

/-- C8: remote validation is claimed to POST the form-encoded token to
the configured introspection endpoint and yield the body on `active`, a
non-error "inactive" result otherwise, and an error only on a rejected
POST; but `server.js` never requires `axios`, so `serverValidate` throws
`ReferenceError: axios is not defined` on every call, before any
introspection POST — here shown at a concrete configured endpoint and
token, with an empty effect list. -/
theorem serverValidate_throws_reference_error :
    introServer.serverValidate "tok-1" =
      (Except.error (JsError.referenceError "axios"), ([] : List Effect)) :=
  rfl

/-- C9: with no key id, `getKeyOrDefault` hands the signer
`keystore.all({use: sig})` — every key whose usage is `sig` — rather than
the first such key the claim (and the function's own comment) describe;
on a key set with two signature keys the signer receives both. -/
theorem getKeyOrDefault_returns_all_sig_keys :
    demoClient.getKeyOrDefault none =
      KeySelection.allSig [privateSigKey, secondSigKey] ∧
    specDefaultSigningKey demoClient = some privateSigKey ∧
    (demoClient.generateJWT 1000 "jti-1" "abc123"
        "https://ehr.example.org/token" none).signer =
      KeySelection.allSig [privateSigKey, secondSigKey] ∧
    privateSigKey ≠ secondSigKey := by
  refine ⟨rfl, rfl, rfl, by decide⟩

/-- C10: the `force` parameter of `requestToken` is accepted but never
read, so the call behaves identically for `force = true` and
`force = false` on every client, world, store and server. -/
theorem requestToken_force_ignored (c : Client) (w : World) (st : Store)
    (server : String) :
    c.requestToken w st server true = c.requestToken w st server false := rfl

end SmartBackendAuth
